import Mathlib

/-!
Formal model of the crossref-preprints-harvester repository.

The development shallowly embeds the two subsystems the claims are about:

* the adaptive harvester in src/preprint_harvester/harvest_crossref.py
  (time-window partitioner, total-results prober, hardened cursor stream
  loop, final sort-and-dedup of the in-memory dataframe), and
* the shard merger in src/preprint_harvester/merge_parquets.py
  (shard discovery flags, schema unification, table alignment and casting,
  streaming merge with atomic parquet finalization).

External effects are embedded as explicit parameters: HTTP fetches become
functions from a call index (or a rows parameter) to a response value, and
filesystem or writer failures become boolean parameters marking which of
the guarded operations in the source succeed.  Timestamps are modelled as
naturals (seconds); ISO date strings, which compare lexicographically in
the source exactly as their dates compare chronologically, are modelled as
naturals with the same order.
-/

/-! ## Window partitioner (harvest_crossref.py, _iter_subwindows_adaptive) -/

/-- Embedding of _iter_subwindows_adaptive.  The probe argument stands for
_total_results over the filter set of the window [s, e]; threshold and
min_window_seconds are the T and M parameters.  Windows are inclusive pairs
of integral-second timestamps, as produced by the strftime second-precision
formatting in the source.  The midpoint is the source expression
datetime.fromtimestamp(int(start + (end - start) / 2)), which for
nonnegative integral timestamps is floor division by two; the right half
starts one second after the midpoint (mid + timedelta(seconds=1)). -/
def _iter_subwindows_adaptive (probe : Nat → Nat → Nat)
    (threshold min_window_seconds : Nat) : Nat → Nat → List (Nat × Nat)
  | s, e =>
    if probe s e = 0 then []
    else if probe s e ≤ threshold ∨ e - s ≤ min_window_seconds then [(s, e)]
    else
      _iter_subwindows_adaptive probe threshold min_window_seconds s ((s + e) / 2) ++
      _iter_subwindows_adaptive probe threshold min_window_seconds ((s + e) / 2 + 1) e
termination_by s e => e - s
decreasing_by
  all_goals omega

/-! ## Hardened cursor stream (harvest_crossref.py, _stream_with_filters) -/

/-- One decoded Crossref message, as read by the stream loop: the
total-results field (msg.get with an `or 0` default), the number of items
on the page, and the next-cursor (none models both an absent and an empty
cursor, which the source treats alike via its truthiness test). -/
structure CrossrefPage where
  total_results : Nat
  nitems : Nat
  next_cursor : Option String
  deriving DecidableEq, Repr

/-- Embedding of the while-loop body of _stream_with_filters.  fetch maps
the index of the HTTP call to the decoded page (_fetch_page); total0 is the
running `total` variable (none until the first page fixes it); yielded the
running item count; last_cursors the retained cursor set; k the call index.
fuel bounds the number of iterations that are modelled: the result is some
yielded when the loop breaks by itself within fuel iterations, and none
when fuel runs out first.  The branch structure follows the source line by
line: a zero-item page follows a fresh cursor or breaks; a page with items
adds them, breaks once yielded reaches a positive advertised total, then
follows the next cursor (re-submitting a seen cursor without re-adding it),
or breaks when no cursor is supplied. -/
def _stream_loop (fetch : Nat → CrossrefPage) :
    Nat → Option Nat → Nat → List String → Nat → Option Nat
  | 0, _, _, _, _ => none
  | fuel + 1, total0, yielded, last_cursors, k =>
    if (fetch k).nitems = 0 then
      match (fetch k).next_cursor with
      | some cur =>
        if cur ∈ last_cursors then some yielded
        else
          _stream_loop fetch fuel (some (total0.getD (fetch k).total_results))
            yielded (cur :: last_cursors) (k + 1)
      | none => some yielded
    else
      if 0 < total0.getD (fetch k).total_results ∧
          total0.getD (fetch k).total_results ≤ yielded + (fetch k).nitems then
        some (yielded + (fetch k).nitems)
      else
        match (fetch k).next_cursor with
        | some cur =>
          if cur ∈ last_cursors then
            _stream_loop fetch fuel (some (total0.getD (fetch k).total_results))
              (yielded + (fetch k).nitems) last_cursors (k + 1)
          else
            _stream_loop fetch fuel (some (total0.getD (fetch k).total_results))
              (yielded + (fetch k).nitems) (cur :: last_cursors) (k + 1)
        | none => some (yielded + (fetch k).nitems)

/-- Embedding of _stream_with_filters itself: the function first runs
`assert rows <= 1000` and only then enters its cursor loop.  A failed
assertion is an AssertionError raised before any request, modelled as the
error value carrying the assertion message; otherwise the loop runs. -/
def _stream_with_filters (rows : Nat) (fetch : Nat → CrossrefPage)
    (fuel : Nat) : Except String (Option Nat) :=
  if rows ≤ 1000 then
    Except.ok (_stream_loop fetch fuel none 0 [] 0)
  else
    Except.error "Crossref caps rows at 1000"

/-- Number of items supplied by the first j fetched pages. -/
def pageSum (fetch : Nat → CrossrefPage) : Nat → Nat
  | 0 => 0
  | j + 1 => pageSum fetch j + (fetch j).nitems

/-! ## Total-results prober (harvest_crossref.py, _total_results) and the
per-subwindow rehydration decision (_process_subwindow) -/

/-- Embedding of _total_results.  fetch_page maps the rows parameter of the
probe request to its outcome: ok with the parsed total-results field, or
error for any raised exception.  The source tries rows equal to zero first
and falls back to rows equal to one, reading the same field; an error of
the fallback propagates. -/
def _total_results (fetch_page : Nat → Except Unit Nat) : Except Unit Nat :=
  match fetch_page 0 with
  | Except.ok data => Except.ok data
  | Except.error _ => fetch_page 1

/-- The sub_total binding of _process_subwindow: the probe outcome with a
raised exception caught and degraded to none. -/
def _process_subwindow_total (fetch_page : Nat → Except Unit Nat) : Option Nat :=
  match _total_results fetch_page with
  | Except.ok t => some t
  | Except.error _ => none

/-- The use_doi_first decision of _process_subwindow:
doi_refetch_enabled and (sub_total is not None) and
(sub_total > doi_refetch_threshold).  When this is false the subwindow is
processed by the direct streaming fast path. -/
def use_doi_first (doi_refetch_enabled : Bool) (doi_refetch_threshold : Nat)
    (sub_total : Option Nat) : Bool :=
  doi_refetch_enabled &&
    (match sub_total with
     | some t => decide (doi_refetch_threshold < t)
     | none => false)

/-! ## Harvester final sort and dedup (harvest_crossref.py,
harvest_preprints_dataframe, lines 610-618) -/

/-- A wide row as assembled by _one_row_wide, restricted to the fields the
final sort and dedup read: the doi key and the four date columns.  Date
strings in ISO form compare lexicographically exactly as dates compare
chronologically, so they are modelled as naturals (none models a missing
date, NaN in the dataframe); payload stands for all remaining columns of
the wide row. -/
structure FlatRow where
  doi : Option String
  posted_date : Option Nat
  deposited_date : Option Nat
  indexed_date : Option Nat
  created_date : Option Nat
  payload : String
  deriving DecidableEq, Repr

/-- Sort key of df.sort_values over the four date columns, ascending with
na_position last: a missing date is the top element of each component. -/
abbrev DateKey :=
  (WithTop Nat) ×ₗ ((WithTop Nat) ×ₗ ((WithTop Nat) ×ₗ (WithTop Nat)))

/-- A date column value with nulls last. -/
def optDate : Option Nat → WithTop Nat
  | none => ⊤
  | some d => (d : WithTop Nat)

/-- The lexicographic sort key (posted, deposited, indexed, created). -/
def sortKey (r : FlatRow) : DateKey :=
  toLex (optDate r.posted_date,
    toLex (optDate r.deposited_date,
      toLex (optDate r.indexed_date, optDate r.created_date)))

/-- The row order used by the final sort. -/
def keyLe (a b : FlatRow) : Prop := sortKey a ≤ sortKey b

instance : DecidableRel keyLe :=
  fun a b => inferInstanceAs (Decidable (sortKey a ≤ sortKey b))

instance : IsTotal FlatRow keyLe :=
  ⟨fun a b => le_total (sortKey a) (sortKey b)⟩

instance : IsTrans FlatRow keyLe :=
  ⟨fun _ _ _ hab hbc => le_trans hab hbc⟩

/-- df.drop_duplicates on the doi column with keep first: the first row of
each doi group survives in place, every later row with an equal doi value
(missing dois compare equal to each other, as NaN keys do in pandas
drop_duplicates) is removed. -/
def drop_duplicates_doi : List FlatRow → List FlatRow
  | [] => []
  | r :: rs =>
    r :: drop_duplicates_doi (rs.filter (fun s => decide (s.doi ≠ r.doi)))
termination_by l => l.length
decreasing_by
  simp only [List.length_cons]
  exact Nat.lt_succ_of_le (List.length_filter_le _ _)

/-- The tail of harvest_preprints_dataframe: on a nonempty dataframe, sort
by (posted_date, deposited_date, indexed_date, created_date) ascending with
nulls last, then drop duplicate dois keeping the first occurrence.  The
pandas sort is not stable (default quicksort), so the model fixes one
order-respecting sort; the theorems below only use properties independent
of how ties are ordered. -/
def harvest_finalize (rows : List FlatRow) : List FlatRow :=
  if rows = [] then rows
  else drop_duplicates_doi (List.insertionSort keyLe rows)

/-! ## Shard merger data model (merge_parquets.py) -/

/-- The Arrow dtypes occurring in the claims: utf8, int32, int64, float64
and the null type. -/
inductive DType
  | string
  | int32
  | int64
  | float64
  | nulltype
  deriving DecidableEq, Repr

/-- A cell value.  The f64 constructor carries the exact value of the
float64 cell; the only float64 values arising in this development are
integer-valued (produced by casting integer columns), so an integer payload
models them exactly. -/
inductive Cell
  | nullcell
  | str (s : String)
  | i32 (n : Int)
  | i64 (n : Int)
  | f64 (v : Int)
  deriving DecidableEq, Repr

/-- A named column of one shard table: its field name, Arrow dtype and cell
values. -/
structure ColumnChunk where
  name : String
  dtype : DType
  cells : List Cell
  deriving DecidableEq, Repr

/-- An Arrow table: its columns plus the num_rows attribute that the merge
loop and pa.nulls read. -/
structure ArrowTable where
  columns : List ColumnChunk
  num_rows : Nat
  deriving DecidableEq, Repr

/-- A schema field and a schema, ordered as Arrow schemas are. -/
abbrev ArrowField := String × DType

abbrev ArrowSchema := List ArrowField

/-- Decimal digit run parser used to model how pa.compute.cast parses a
string cell into an integer: none when a non-digit occurs. -/
def parseDigitsAux : List Char → Nat → Option Nat
  | [], acc => some acc
  | c :: cs, acc =>
    if c.isDigit then parseDigitsAux cs (acc * 10 + (c.toNat - 48)) else none

/-- Integer parse of a whole string (optional leading minus then digits),
as the Arrow string-to-integer cast accepts; anything else fails. -/
def parseIntString (s : String) : Option Int :=
  match s.data with
  | [] => none
  | '-' :: cs =>
    if cs = [] then none
    else (parseDigitsAux cs 0).map (fun n => -(n : Int))
  | cs => (parseDigitsAux cs 0).map (fun n => (n : Int))

/-- Smallest int32 value. -/
def int32_min : Int := -(2 ^ 31)

/-- Largest int32 value. -/
def int32_max : Int := 2 ^ 31 - 1

/-- Smallest int64 value. -/
def int64_min : Int := -(2 ^ 63)

/-- Largest int64 value. -/
def int64_max : Int := 2 ^ 63 - 1

/-- Modelled from the documented behaviour of pa.compute.cast (safe mode,
the default used by _align_table_to_schema) on the dtypes above: null
values cast to anything, identity casts succeed, integers widen to int64
or float64 and narrow to int32 only when in range, numeric strings parse
to integers and to float64, integers render to strings, and integral
float64 values cast to the integer types when in range.  Cell.f64 carries
only integer-valued float64 payloads, so string literals denoting
non-integral floats (which pyarrow would also parse) lie outside this
model; no theorem depends on them.  Remaining combinations fail. -/
def castCell : Cell → DType → Option Cell
  | Cell.nullcell, _ => some Cell.nullcell
  | Cell.str s, DType.string => some (Cell.str s)
  | Cell.str s, DType.int32 =>
    match parseIntString s with
    | some n =>
      if int32_min ≤ n ∧ n ≤ int32_max then some (Cell.i32 n) else none
    | none => none
  | Cell.str s, DType.int64 => (parseIntString s).map Cell.i64
  | Cell.str s, DType.float64 => (parseIntString s).map Cell.f64
  | Cell.str _, _ => none
  | Cell.i32 n, DType.int32 => some (Cell.i32 n)
  | Cell.i32 n, DType.int64 => some (Cell.i64 n)
  | Cell.i32 n, DType.float64 => some (Cell.f64 n)
  | Cell.i32 n, DType.string => some (Cell.str (toString n))
  | Cell.i32 _, DType.nulltype => none
  | Cell.i64 n, DType.int32 =>
    if int32_min ≤ n ∧ n ≤ int32_max then some (Cell.i32 n) else none
  | Cell.i64 n, DType.int64 => some (Cell.i64 n)
  | Cell.i64 n, DType.float64 => some (Cell.f64 n)
  | Cell.i64 n, DType.string => some (Cell.str (toString n))
  | Cell.i64 _, DType.nulltype => none
  | Cell.f64 v, DType.float64 => some (Cell.f64 v)
  | Cell.f64 v, DType.int32 =>
    if int32_min ≤ v ∧ v ≤ int32_max then some (Cell.i32 v) else none
  | Cell.f64 v, DType.int64 =>
    if int64_min ≤ v ∧ v ≤ int64_max then some (Cell.i64 v) else none
  | Cell.f64 _, _ => none

/-- Casting a whole column, as pa.compute.cast does: the cast succeeds only
when every cell casts, and then retypes the column. -/
def castColumn (col : ColumnChunk) (t : DType) : Option ColumnChunk :=
  (col.cells.mapM (fun c => castCell c t)).map
    (fun cs => { name := col.name, dtype := t, cells := cs })

/-- The per-field step of the cols loop in _align_table_to_schema.  For a
field present in the table the column is taken, cast to the field type
when the types differ, and kept as originally typed when the cast raises
(the except-pass branch appends the uncast column to cols).  For a field
absent from the table the source evaluates
pa.nulls(length=tbl.num_rows, type=f.type).rename(f.name), which raises:
pa.nulls has no length keyword (its parameter is size) and Arrow arrays
have no rename method; none models that raised exception. -/
def alignField (tbl : ArrowTable) (f : ArrowField) : Option ColumnChunk :=
  match tbl.columns.find? (fun col => col.name == f.1) with
  | some col =>
    if col.dtype = f.2 then some col
    else
      match castColumn col f.2 with
      | some col2 => some col2
      | none => some col
  | none => none

/-- Embedding of _align_table_to_schema together with the error behaviour
of its pyarrow calls.  The cols loop runs alignField over the schema
fields (failing at the first missing field); the final
pa.table(cols, schema=schema) re-casts every column to its declared field
type, so a column kept in its original type by the except-pass branch
(whose cast has just failed) makes the construction raise as well.  none
models the raised exception; the merge loop catches it per shard and
skips the whole shard. -/
def _align_table_to_schema (tbl : ArrowTable) (schema : ArrowSchema) :
    Option ArrowTable :=
  match schema.mapM (alignField tbl) with
  | some cols =>
    if (cols.zip schema).all (fun p => p.1.dtype == p.2.2) then
      some { columns := cols, num_rows := tbl.num_rows }
    else none
  | none => none

/-- The per-schema normalization inside _collect_unified_schema: when a
field named score is present and its type is not float64, every field
named score is rewritten to float64; otherwise the schema passes through. -/
def score_to_float64 (schema : ArrowSchema) : ArrowSchema :=
  match schema.find? (fun f => f.1 == "score") with
  | some f =>
    if f.2 = DType.float64 then schema
    else schema.map (fun g => if g.1 = "score" then ("score", DType.float64) else g)
  | none => schema

/-- Merging one field into an accumulated schema, as pa.unify_schemas does
field by field under its default promote options: an existing field of the
same name must carry an equal type, except that the null type promotes to
the other type; a new name is appended.  none models the ArrowInvalid
error raised on any other type difference. -/
def unifyTwoTypes (t u : DType) : Option DType :=
  if t = u then some t
  else if t = DType.nulltype then some u
  else if u = DType.nulltype then some t
  else none

/-- Inserting one field into the accumulated unified schema. -/
def mergeFieldInto : ArrowSchema → ArrowField → Option ArrowSchema
  | [], f => some [f]
  | g :: gs, f =>
    if g.1 = f.1 then (unifyTwoTypes g.2 f.2).map (fun t => (g.1, t) :: gs)
    else (mergeFieldInto gs f).map (fun acc => g :: acc)

/-- pa.unify_schemas over a nonempty list of schemas; none models a raised
unification error (including the error on an empty list, which the source
never reaches because of its emptiness guard). -/
def unify_schemas : List ArrowSchema → Option ArrowSchema
  | [] => none
  | s :: ss => ss.foldlM (fun acc sch => sch.foldlM mergeFieldInto acc) s

/-- Embedding of _collect_unified_schema: per-shard schemas that could not
be read (the warned and skipped shards) are none; the readable ones get the
score normalization and are unified; with no readable schema the result is
the empty schema. -/
def _collect_unified_schema (shard_schemas : List (Option ArrowSchema)) :
    Option ArrowSchema :=
  let schemas := (shard_schemas.filterMap id).map score_to_float64
  if schemas.isEmpty then some [] else unify_schemas schemas

/-! ## Shard discovery (merge_parquets.py, discover_parquet_files) -/

/-- The audit fields of one discovered shard record that the claims read:
the resolved path, the probed row count (none when both the metadata read
and the one-column fallback fail) and the suspected_incomplete flag. -/
structure ShardRecord where
  filepath : String
  rows : Option Nat
  suspected_incomplete : Option Bool
  deriving DecidableEq, Repr

/-- Building one discovery record: suspected_incomplete is
(num_rows == 2000) when the row count is known and None otherwise, exactly
the expression in discover_parquet_files. -/
def mkShardRecord (filepath : String) (num_rows : Option Nat) : ShardRecord :=
  { filepath := filepath, rows := num_rows,
    suspected_incomplete := num_rows.map (fun n => decide (n = 2000)) }

/-! ## Streaming merge and atomic finalize (merge_parquets.py,
merge_parquets_and_report) -/

/-- The merge loop body applied to every discovered shard: the per-shard
try/except skips, with a warning, every shard whose read raises (modelled
by none in the input list) and every shard whose alignment raises
(alignment returning none); the surviving shards are the aligned ones. -/
def aligned_tables (schema : ArrowSchema) (shards : List (Option ArrowTable)) :
    List ArrowTable :=
  (shards.filterMap id).filterMap (fun t => _align_table_to_schema t schema)

/-- The total_rows_written counter of the merge loop: the sum of num_rows
over every aligned shard, counted whether or not the parquet writer is
available. -/
def total_rows_written (schema : ArrowSchema) (shards : List (Option ArrowTable)) :
    Nat :=
  ((aligned_tables schema shards).map (fun t => t.num_rows)).sum

/-- Observable outcome of one merge run: the rows of the finalized parquet
output (none when the parquet output was skipped), the rows mirrored to the
csv output, whether the temporary parquet artifact is left behind, whether
the report lists the parquet output as skipped, and the row counter. -/
structure MergeResult where
  parquet : Option (List ArrowTable)
  csv : List ArrowTable
  tmp_remains : Bool
  report_parquet_skipped : Bool
  rows_written : Nat
  deriving DecidableEq, Repr

/-- Embedding of the output phase of merge_parquets_and_report.  The three
boolean parameters mark which guarded operations succeed: writer_open_ok
is the ParquetWriter constructor (its failure sets parquet_ok to false and
the run continues), replace_ok is the os.replace of the temporary file into
the final path, remove_ok is the os.remove cleanup of the temporary file
after a failed replace (its own failure is swallowed by the inner
except-pass).  The csv mirror is appended for every readable shard
independently of the parquet flags, and the report marks the parquet
output as skipped instead of raising whenever parquet_ok ended up false. -/
def merge_parquets_and_report (schema : ArrowSchema)
    (shards : List (Option ArrowTable))
    (writer_open_ok replace_ok remove_ok : Bool) : MergeResult :=
  let aligned := aligned_tables schema shards
  let rows := (aligned.map (fun t => t.num_rows)).sum
  if writer_open_ok then
    if replace_ok then
      { parquet := some aligned, csv := aligned, tmp_remains := false,
        report_parquet_skipped := false, rows_written := rows }
    else
      { parquet := none, csv := aligned, tmp_remains := !remove_ok,
        report_parquet_skipped := true, rows_written := rows }
  else
    { parquet := none, csv := aligned, tmp_remains := false,
      report_parquet_skipped := true, rows_written := rows }

/-! ## Concrete instances used by the witnesses and counterexamples -/

/-- An honest two-page stream: a total of five records delivered as a page
of three and a page of two, with fresh cursors. -/
def exFetchHonest : Nat → CrossrefPage := fun k =>
  if k = 0 then { total_results := 5, nitems := 3, next_cursor := some "A" }
  else if k = 1 then { total_results := 5, nitems := 2, next_cursor := some "B" }
  else { total_results := 5, nitems := 0, next_cursor := none }

/-- The cursors of the honest stream, indexed by call. -/
def exCursor : Nat → String := fun j => if j = 0 then "A" else "B"

/-- A stream that returns the same cursor with zero items on every call. -/
def exFetchRepeat : Nat → CrossrefPage := fun _ =>
  { total_results := 0, nitems := 0, next_cursor := some "C" }

/-- A probe endpoint on which both the zero-row and the one-row request
raise. -/
def probe_fail : Nat → Except Unit Nat := fun _ => Except.error ()

/-- Two harvested rows for the same doi X, the first posted earlier. -/
def exRow1 : FlatRow :=
  { doi := some "X", posted_date := some 20240101, deposited_date := none,
    indexed_date := none, created_date := none, payload := "v1" }

/-- The later-posted duplicate of exRow1. -/
def exRow2 : FlatRow :=
  { doi := some "X", posted_date := some 20240605, deposited_date := none,
    indexed_date := none, created_date := none, payload := "v2" }

/-- Schema of the two overlapping shards of the C1 scenario. -/
def schemaX : ArrowSchema := [("doi", DType.string), ("posted_date", DType.string)]

/-- Shard holding doi X with the earlier availability timestamp t1. -/
def shardX1 : ArrowTable :=
  { columns := [
      { name := "doi", dtype := DType.string, cells := [Cell.str "X"] },
      { name := "posted_date", dtype := DType.string, cells := [Cell.str "2024-01-01"] }],
    num_rows := 1 }

/-- Shard holding doi X again with the later availability timestamp t2. -/
def shardX2 : ArrowTable :=
  { columns := [
      { name := "doi", dtype := DType.string, cells := [Cell.str "X"] },
      { name := "posted_date", dtype := DType.string, cells := [Cell.str "2024-06-05"] }],
    num_rows := 1 }

/-- A shard whose score column is a non-numeric string, so that the cast
to the unified int32 type fails. -/
def tblC4 : ArrowTable :=
  { columns := [
      { name := "score", dtype := DType.string, cells := [Cell.str "abc"] }],
    num_rows := 1 }

/-- Unified schema typing score as int32, against which tblC4 is aligned. -/
def schemaC4 : ArrowSchema := [("score", DType.int32)]

/-- The string score column of tblC4. -/
def colC4 : ColumnChunk :=
  { name := "score", dtype := DType.string, cells := [Cell.str "abc"] }

/-- Schema of the first C6 scenario shard. -/
def c6schema1 : ArrowSchema := [("doi", DType.string), ("score", DType.int32)]

/-- Schema of the second C6 scenario shard. -/
def c6schema2 : ArrowSchema :=
  [("doi", DType.string), ("score", DType.float64), ("language", DType.string)]

/-- The unified schema the C6 scenario expects. -/
def c6unified : ArrowSchema :=
  [("doi", DType.string), ("score", DType.float64), ("language", DType.string)]

/-- First C6 shard: ten rows of string dois and int32 scores. -/
def c6shard1 : ArrowTable :=
  { columns := [
      { name := "doi", dtype := DType.string,
        cells := [Cell.str "a0", Cell.str "a1", Cell.str "a2", Cell.str "a3",
          Cell.str "a4", Cell.str "a5", Cell.str "a6", Cell.str "a7",
          Cell.str "a8", Cell.str "a9"] },
      { name := "score", dtype := DType.int32,
        cells := [Cell.i32 0, Cell.i32 1, Cell.i32 2, Cell.i32 3, Cell.i32 4,
          Cell.i32 5, Cell.i32 6, Cell.i32 7, Cell.i32 8, Cell.i32 9] }],
    num_rows := 10 }

/-- Second C6 shard: five rows with float64 scores and a language column. -/
def c6shard2 : ArrowTable :=
  { columns := [
      { name := "doi", dtype := DType.string,
        cells := [Cell.str "b0", Cell.str "b1", Cell.str "b2", Cell.str "b3",
          Cell.str "b4"] },
      { name := "score", dtype := DType.float64,
        cells := [Cell.f64 10, Cell.f64 11, Cell.f64 12, Cell.f64 13, Cell.f64 14] },
      { name := "language", dtype := DType.string,
        cells := [Cell.str "en", Cell.str "fr", Cell.str "en", Cell.str "de",
          Cell.str "en"] }],
    num_rows := 5 }

/-- A shard with exactly 2000 rows, the historical truncation cap. -/
def tbl2000 : ArrowTable :=
  { columns := [
      { name := "doi", dtype := DType.string,
        cells := List.replicate 2000 (Cell.str "d") }],
    num_rows := 2000 }

/-- Schema of tbl2000, against which it aligns as itself. -/
def schema2000 : ArrowSchema := [("doi", DType.string)]

/-- A unified schema containing a field absent from tbl2000, so that
aligning tbl2000 hits the raising missing-column branch. -/
def schemaC9 : ArrowSchema := [("doi", DType.string), ("language", DType.string)]

/-! # Theorems -/

/-! ## Window partitioner lemmas -/

/-- Every yielded leaf lies inside the input window and is itself a
well-formed window. -/
theorem subwindows_bounds (probe : Nat → Nat → Nat) (T M s e : Nat) :
    s ≤ e → ∀ w ∈ _iter_subwindows_adaptive probe T M s e,
      s ≤ w.1 ∧ w.1 ≤ w.2 ∧ w.2 ≤ e := by
  induction s, e using _iter_subwindows_adaptive.induct probe T M with
  | case1 s e h => intro _ w hw; rw [_iter_subwindows_adaptive] at hw; simp [h] at hw
  | case2 s e h1 h2 =>
    intro hse w hw; rw [_iter_subwindows_adaptive] at hw
    simp only [if_neg h1, if_pos h2, List.mem_singleton] at hw
    subst hw; omega
  | case3 s e h1 h2 ih1 ih2 =>
    intro hse w hw; rw [_iter_subwindows_adaptive] at hw
    simp only [if_neg h1, if_neg h2, List.mem_append] at hw
    push_neg at h2
    rcases hw with hw | hw
    · have := ih1 (by omega) w hw; omega
    · have := ih2 (by omega) w hw; omega

/-- The leaves are emitted left before right: each leaf ends strictly
before the next one starts, so they are pairwise disjoint and
chronologically ordered. -/
theorem subwindows_chain (probe : Nat → Nat → Nat) (T M s e : Nat) :
    s ≤ e → List.Chain' (fun a b => a.2 < b.1)
      (_iter_subwindows_adaptive probe T M s e) := by
  induction s, e using _iter_subwindows_adaptive.induct probe T M with
  | case1 s e h => intro _; rw [_iter_subwindows_adaptive]; simp [h]
  | case2 s e h1 h2 =>
    intro hse; rw [_iter_subwindows_adaptive, if_neg h1, if_pos h2]; simp
  | case3 s e h1 h2 ih1 ih2 =>
    intro hse; rw [_iter_subwindows_adaptive]
    simp only [if_neg h1, if_neg h2]
    push_neg at h2
    refine List.Chain'.append (ih1 (by omega)) (ih2 (by omega)) ?_
    intro x hx y hy
    have hx' := subwindows_bounds probe T M s ((s + e) / 2) (by omega) x
      (List.mem_of_mem_getLast? hx)
    have hy' := subwindows_bounds probe T M ((s + e) / 2 + 1) e (by omega) y
      (List.mem_of_mem_head? hy)
    omega

/-- When every probed subwindow count is nonzero, the leaves cover the
whole input window: every second of it lies in some leaf. -/
theorem subwindows_cover (probe : Nat → Nat → Nat) (T M s e : Nat)
    (hpos : ∀ a b, a ≤ b → probe a b ≠ 0) :
    s ≤ e → ∀ t, s ≤ t → t ≤ e →
      ∃ w ∈ _iter_subwindows_adaptive probe T M s e, w.1 ≤ t ∧ t ≤ w.2 := by
  induction s, e using _iter_subwindows_adaptive.induct probe T M with
  | case1 s e h => intro hse; exact absurd h (hpos s e hse)
  | case2 s e h1 h2 =>
    intro hse t ht1 ht2; rw [_iter_subwindows_adaptive]
    simp only [if_neg h1, if_pos h2, List.mem_singleton]
    exact ⟨(s, e), rfl, ht1, ht2⟩
  | case3 s e h1 h2 ih1 ih2 =>
    intro hse t ht1 ht2; rw [_iter_subwindows_adaptive]
    simp only [if_neg h1, if_neg h2, List.mem_append]
    push_neg at h2
    by_cases hm : t ≤ (s + e) / 2
    · obtain ⟨w, hw, hw2⟩ := ih1 (by omega) t ht1 hm
      exact ⟨w, Or.inl hw, hw2⟩
    · obtain ⟨w, hw, hw2⟩ := ih2 (by omega) t (by omega) ht2
      exact ⟨w, Or.inr hw, hw2⟩

/-! ## C2 -/

/-- C2 (counterexample): when the probe reports zero results for the
one-week default window, the partitioner yields no leaf at all, so the
union of the yielded leaves is empty and does not equal the input window:
no leaf covers the instant 0 although 0 lies in the input window
[0, 604799].  This refutes the unconditional coverage stated by the
claim. -/
theorem partition_zero_probe_gap_c2 :
    _iter_subwindows_adaptive (fun _ _ => 0) 1500 3600 0 604799 = [] ∧
    ¬ ∃ w ∈ _iter_subwindows_adaptive (fun _ _ => 0) 1500 3600 0 604799,
        w.1 ≤ 0 ∧ 0 ≤ w.2 := by
  constructor
  · rw [_iter_subwindows_adaptive]; simp
  · rw [_iter_subwindows_adaptive]; simp

/-- C2 (amended): for every input window with start at most end, the
yielded leaves are pairwise disjoint and emitted left before right in
chronological order, and each lies inside the input window; whenever every
probed subwindow count is nonzero the leaves additionally cover the input
window exactly, with no gaps and no overlaps.  (A subwindow probed as
empty yields no leaf, which is the only source of gaps.) -/
theorem partition_disjoint_ordered_cover_c2 (probe : Nat → Nat → Nat)
    (threshold min_window_seconds s e : Nat) (hse : s ≤ e) :
    List.Chain' (fun a b => a.2 < b.1)
      (_iter_subwindows_adaptive probe threshold min_window_seconds s e) ∧
    (∀ w ∈ _iter_subwindows_adaptive probe threshold min_window_seconds s e,
        s ≤ w.1 ∧ w.1 ≤ w.2 ∧ w.2 ≤ e) ∧
    ((∀ a b, a ≤ b → probe a b ≠ 0) →
      ∀ t, s ≤ t → t ≤ e →
        ∃ w ∈ _iter_subwindows_adaptive probe threshold min_window_seconds s e,
          w.1 ≤ t ∧ t ≤ w.2) :=
  ⟨subwindows_chain probe threshold min_window_seconds s e hse,
   subwindows_bounds probe threshold min_window_seconds s e hse,
   fun hpos => subwindows_cover probe threshold min_window_seconds s e hpos hse⟩

/-- C2 witness: the amended theorem applied to a concrete all-ones probe
over one day. -/
theorem partition_disjoint_ordered_cover_c2_witness :
    List.Chain' (fun a b => a.2 < b.1)
      (_iter_subwindows_adaptive (fun _ _ => 1) 1500 3600 0 86399) :=
  (partition_disjoint_ordered_cover_c2 (fun _ _ => 1) 1500 3600 0 86399
    (by omega)).1

/-! ## Stream loop run lemma and C3 -/

/-- Running the stream loop against an honest delivery: the first page
advertises N, the first K calls supply fresh pairwise-distinct cursors,
the partial item sums stay below N through call K and reach exactly N
after call K.  From any loop state reachable at call j the loop ends with
exactly N items yielded, within K + 1 - j further iterations. -/
theorem stream_loop_run (fetch : Nat → CrossrefPage) (N K : Nat) (c : Nat → String)
    (hN : (fetch 0).total_results = N)
    (hcur : ∀ j, j < K → (fetch j).next_cursor = some (c j))
    (hinj : ∀ i j, i < K → j < K → c i = c j → i = j)
    (hlt : ∀ j, j ≤ K → pageSum fetch j < N)
    (hK : pageSum fetch (K + 1) = N) :
    ∀ fuel j (total0 : Option Nat) (seen : List String),
      j ≤ K → K + 1 - j ≤ fuel →
      (j = 0 ∧ total0 = none ∨ total0 = some N) →
      (∀ x, x ∈ seen ↔ ∃ l, l < j ∧ c l = x) →
      _stream_loop fetch fuel total0 (pageSum fetch j) seen j = some N := by
  intro fuel
  induction fuel with
  | zero => intro j total0 seen hj hfuel _ _; omega
  | succ fuel ih =>
    intro j total0 seen hj hfuel htot hseen
    have htotval : total0.getD (fetch j).total_results = N := by
      rcases htot with ⟨hj0, htnone⟩ | htsome
      · subst hj0; subst htnone; simpa using hN
      · subst htsome; rfl
    have hNpos : 0 < N := by
      have := hlt 0 (Nat.zero_le K); simpa [pageSum] using this
    have hfresh : ∀ hjK : j < K, c j ∉ seen := by
      intro hjK hmem
      obtain ⟨l, hl, hlc⟩ := (hseen _).mp hmem
      exact absurd (hinj l j (lt_trans hl hjK) hjK hlc) (Nat.ne_of_lt hl)
    have hseen' : ∀ hjK : j < K, ∀ x, x ∈ c j :: seen ↔ ∃ l, l < j + 1 ∧ c l = x := by
      intro hjK x
      constructor
      · intro hx
        rcases List.mem_cons.mp hx with hx | hx
        · exact ⟨j, Nat.lt_succ_self j, hx.symm⟩
        · obtain ⟨l, hl, hlc⟩ := (hseen _).mp hx
          exact ⟨l, Nat.lt_succ_of_lt hl, hlc⟩
      · rintro ⟨l, hl, rfl⟩
        rcases Nat.lt_succ_iff_lt_or_eq.mp hl with hl | hl
        · exact List.mem_cons_of_mem _ ((hseen _).mpr ⟨l, hl, rfl⟩)
        · subst hl; exact List.mem_cons_self _ _
    simp only [_stream_loop, htotval]
    by_cases h0 : (fetch j).nitems = 0
    · have hjK : j < K := by
        rcases Nat.lt_or_ge j K with h | h
        · exact h
        · exfalso
          have hje : j = K := le_antisymm hj h
          subst hje
          have h1 := hlt j le_rfl
          have h2 : pageSum fetch (j + 1) = pageSum fetch j + (fetch j).nitems := rfl
          omega
      rw [if_pos h0, hcur j hjK]
      simp only
      rw [if_neg (hfresh hjK)]
      have hps : pageSum fetch (j + 1) = pageSum fetch j := by
        simp [pageSum, h0]
      rw [← hps]
      exact ih (j + 1) (some N) (c j :: seen) hjK (by omega) (Or.inr rfl)
        (hseen' hjK)
    · rw [if_neg h0]
      have hps : pageSum fetch j + (fetch j).nitems = pageSum fetch (j + 1) := rfl
      rcases Nat.lt_or_ge j K with hjK | hjK
      · have hlt1 : pageSum fetch (j + 1) < N := hlt (j + 1) (by omega)
        rw [if_neg (by omega), hcur j hjK]
        simp only
        rw [if_neg (hfresh hjK), hps]
        exact ih (j + 1) (some N) (c j :: seen) hjK (by omega) (Or.inr rfl)
          (hseen' hjK)
      · have hje : j = K := le_antisymm hj hjK
        subst hje
        have heq : pageSum fetch j + (fetch j).nitems = N := by
          rw [hps]; exact hK
        rw [if_pos (by omega), heq]

/-- C3: a paginated stream whose first response advertises a total of N
and whose pages honestly deliver exactly N well-formed items across pages
0..K with fresh cursors yields exactly N items and then terminates: the
stream function returns within K + 1 fetches with the count N.  The stop
conditions of the loop (count reached, no next cursor, repeated cursor
with zero items) are the only exits of the modelled loop body. -/
theorem stream_yields_advertised_total_c3 (fetch : Nat → CrossrefPage)
    (rows N K : Nat) (c : Nat → String)
    (hrows : rows ≤ 1000)
    (hN : (fetch 0).total_results = N)
    (hcur : ∀ j, j < K → (fetch j).next_cursor = some (c j))
    (hinj : ∀ i j, i < K → j < K → c i = c j → i = j)
    (hlt : ∀ j, j ≤ K → pageSum fetch j < N)
    (hK : pageSum fetch (K + 1) = N) :
    _stream_with_filters rows fetch (K + 1) = Except.ok (some N) := by
  unfold _stream_with_filters
  rw [if_pos hrows]
  have h := stream_loop_run fetch N K c hN hcur hinj hlt hK (K + 1) 0 none []
    (Nat.zero_le K) (by omega) (Or.inl ⟨rfl, rfl⟩) (by intro x; simp)
  simpa [pageSum] using h

/-- C3 witness: the honest two-page stream with advertised total five
yields exactly five items. -/
theorem stream_yields_advertised_total_c3_witness :
    _stream_with_filters 1000 exFetchHonest 2 = Except.ok (some 5) :=
  stream_yields_advertised_total_c3 exFetchHonest 1000 5 1 exCursor
    (by omega)
    rfl
    (by intro j hj; have hj0 : j = 0 := by omega
        subst hj0; rfl)
    (by intro i j hi hj _; omega)
    (by intro j hj
        have : j = 0 ∨ j = 1 := by omega
        rcases this with h | h <;> subst h <;> decide)
    (by decide)

/-! ## C7 -/

/-- C7: from any loop state, when the fetch at the current call returns
zero items with some next-cursor c and the following fetch returns zero
items with the same cursor c, the stream terminates within two iterations
yielding nothing further: either c was already in the retained cursor set
and the loop breaks at once, or c is followed once (the legitimate retry)
and the repeat with zero items breaks.  The cursor-repeat guard therefore
prevents an infinite loop. -/
theorem cursor_repeat_guard_c7 (fetch : Nat → CrossrefPage) (fuel : Nat)
    (total0 : Option Nat) (yielded : Nat) (seen : List String) (k : Nat)
    (c : String)
    (h1 : (fetch k).nitems = 0) (h2 : (fetch k).next_cursor = some c)
    (h3 : (fetch (k + 1)).nitems = 0) (h4 : (fetch (k + 1)).next_cursor = some c) :
    _stream_loop fetch (fuel + 2) total0 yielded seen k = some yielded := by
  have e2 : fuel + 2 = (fuel + 1) + 1 := rfl
  rw [e2]
  simp only [_stream_loop, h1, h2, h3, h4]
  by_cases hc : c ∈ seen
  · simp [hc]
  · simp [hc]

/-- C7 witness: the guard theorem applied to the concrete stream that
always answers with zero items and the repeated cursor C. -/
theorem cursor_repeat_guard_c7_witness :
    _stream_loop exFetchRepeat 2 none 0 [] 0 = some 0 :=
  cursor_repeat_guard_c7 exFetchRepeat 0 none 0 [] 0 "C" rfl rfl rfl rfl

/-! ## C10 -/

/-- C10: calling the stream reader with a page size above 1000 fails the
assertion before any request is issued: the result is the assertion error
and does not depend on the fetch function or the fuel, so no request
influences it; with rows at most 1000 the assertion branch is not taken
and the reader proceeds into its cursor loop. -/
theorem stream_rows_assert_c10 (rows : Nat) (fetch fetch2 : Nat → CrossrefPage)
    (fuel fuel2 : Nat) :
    (1000 < rows →
      _stream_with_filters rows fetch fuel
          = Except.error "Crossref caps rows at 1000" ∧
      _stream_with_filters rows fetch fuel
          = _stream_with_filters rows fetch2 fuel2) ∧
    (rows ≤ 1000 →
      _stream_with_filters rows fetch fuel
          = Except.ok (_stream_loop fetch fuel none 0 [] 0)) := by
  unfold _stream_with_filters
  constructor
  · intro h
    rw [if_neg (by omega), if_neg (by omega)]
    exact ⟨rfl, rfl⟩
  · intro h
    rw [if_pos h]

/-- C10 witness: the assertion fires at 1001 rows and does not at 1000. -/
theorem stream_rows_assert_c10_witness :
    _stream_with_filters 1001 exFetchHonest 1
        = Except.error "Crossref caps rows at 1000" ∧
    _stream_with_filters 1000 exFetchHonest 1
        = Except.ok (_stream_loop exFetchHonest 1 none 0 [] 0) :=
  ⟨((stream_rows_assert_c10 1001 exFetchHonest exFetchHonest 1 1).1
      (by omega)).1,
   (stream_rows_assert_c10 1000 exFetchHonest exFetchHonest 1 1).2 (by omega)⟩

/-! ## C5 -/

/-- C5: the total-count prober returns the zero-row answer when that query
succeeds and otherwise returns whatever the one-row fallback produces;
when both attempts fail, the per-subwindow caller catches the error,
records the count as unknown (none) and the rehydration decision is false,
so the subwindow continues with direct streaming; the probe is attempted
exactly twice, never retried further. -/
theorem prober_fallback_unknown_c5 (fetch_page : Nat → Except Unit Nat)
    (doi_refetch_enabled : Bool) (doi_refetch_threshold : Nat) :
    (∀ t, fetch_page 0 = Except.ok t → _total_results fetch_page = Except.ok t) ∧
    (fetch_page 0 = Except.error () → _total_results fetch_page = fetch_page 1) ∧
    (fetch_page 0 = Except.error () → fetch_page 1 = Except.error () →
      _process_subwindow_total fetch_page = none ∧
      use_doi_first doi_refetch_enabled doi_refetch_threshold
        (_process_subwindow_total fetch_page) = false) := by
  refine ⟨?_, ?_, ?_⟩
  · intro t h; simp [_total_results, h]
  · intro h; simp [_total_results, h]
  · intro h0 h1
    have hnone : _process_subwindow_total fetch_page = none := by
      simp [_process_subwindow_total, _total_results, h0, h1]
    exact ⟨hnone, by simp [hnone, use_doi_first]⟩

/-- C5 witness: on the endpoint where both probe attempts raise, the count
is unknown and rehydration stays off even though it is enabled and the
threshold is the default 1800. -/
theorem prober_fallback_unknown_c5_witness :
    _process_subwindow_total probe_fail = none ∧
    use_doi_first true 1800 (_process_subwindow_total probe_fail) = false :=
  (prober_fallback_unknown_c5 probe_fail true 1800).2.2 rfl rfl

/-! ## Dedup lemmas for the harvester finalize -/

/-- Every surviving row of drop_duplicates_doi was in the input. -/
theorem drop_duplicates_doi_subset :
    ∀ l : List FlatRow, ∀ x ∈ drop_duplicates_doi l, x ∈ l := by
  intro l
  induction l using drop_duplicates_doi.induct with
  | case1 => intro x hx; rw [drop_duplicates_doi] at hx; simp at hx
  | case2 r rs ih =>
    intro x hx
    rw [drop_duplicates_doi] at hx
    rcases List.mem_cons.mp hx with h | h
    · exact h ▸ List.mem_cons_self r rs
    · exact List.mem_cons_of_mem r (List.mem_of_mem_filter (ih x h))

/-- The surviving rows carry pairwise distinct doi values. -/
theorem drop_duplicates_doi_pairwise :
    ∀ l : List FlatRow,
      (drop_duplicates_doi l).Pairwise (fun a b => a.doi ≠ b.doi) := by
  intro l
  induction l using drop_duplicates_doi.induct with
  | case1 => rw [drop_duplicates_doi]; simp
  | case2 r rs ih =>
    rw [drop_duplicates_doi]
    refine List.Pairwise.cons ?_ ih
    intro y hy
    have hmem := List.mem_filter.mp (drop_duplicates_doi_subset _ y hy)
    have : y.doi ≠ r.doi := by simpa using hmem.2
    exact fun heq => this heq.symm

/-- Every input doi is represented among the survivors. -/
theorem drop_duplicates_doi_represents :
    ∀ l : List FlatRow, ∀ x ∈ l, ∃ y ∈ drop_duplicates_doi l, y.doi = x.doi := by
  intro l
  induction l using drop_duplicates_doi.induct with
  | case1 => intro x hx; simp at hx
  | case2 r rs ih =>
    intro x hx
    rw [drop_duplicates_doi]
    rcases List.mem_cons.mp hx with h | h
    · exact ⟨r, List.mem_cons_self _ _, by rw [h]⟩
    · by_cases hdoi : x.doi = r.doi
      · exact ⟨r, List.mem_cons_self _ _, hdoi.symm⟩
      · have hxf : x ∈ rs.filter (fun s => decide (s.doi ≠ r.doi)) :=
          List.mem_filter.mpr ⟨h, by simpa using hdoi⟩
        obtain ⟨y, hy, hyd⟩ := ih x hxf
        exact ⟨y, List.mem_cons_of_mem _ hy, hyd⟩

/-- On a sorted input, each survivor has a sort key at most that of every
input row with the same doi: keep-first on a sorted list keeps a
minimal-key row of each doi group. -/
theorem drop_duplicates_doi_min :
    ∀ l : List FlatRow, l.Sorted keyLe →
      ∀ y ∈ drop_duplicates_doi l, ∀ x ∈ l, x.doi = y.doi → keyLe y x := by
  intro l
  induction l using drop_duplicates_doi.induct with
  | case1 => intro _ y hy; rw [drop_duplicates_doi] at hy; simp at hy
  | case2 r rs ih =>
    intro hs y hy x hx hdoi
    have hs' := List.sorted_cons.mp hs
    rw [drop_duplicates_doi] at hy
    rcases List.mem_cons.mp hy with hyr | hyf
    · subst hyr
      rcases List.mem_cons.mp hx with hxr | hxt
      · subst hxr; exact le_refl _
      · exact hs'.1 x hxt
    · have hyd : y.doi ≠ r.doi := by
        simpa using
          (List.mem_filter.mp (drop_duplicates_doi_subset _ y hyf)).2
      rcases List.mem_cons.mp hx with hxr | hxt
      · subst hxr; exact absurd hdoi (Ne.symm hyd)
      · have hxf : x ∈ rs.filter (fun s => decide (s.doi ≠ r.doi)) :=
          List.mem_filter.mpr ⟨hxt, by simpa [hdoi] using hyd⟩
        exact ih (List.Pairwise.sublist (List.filter_sublist _) hs'.2)
          y hyf x hxf hdoi

/-! ## C1 -/

/-- C1 (counterexample): the shard merger itself does not deduplicate.
Two shards each carrying the identifier X, one with the earlier posted
date 2024-01-01 (t1) and one with 2024-06-05 (t2), are merged into an
output that keeps both rows: the finalized parquet content lists both
shard tables unchanged and two rows are written, not the single t1 row the
claim requires. -/
theorem merge_retains_duplicate_doi_c1 :
    (merge_parquets_and_report schemaX [some shardX1, some shardX2]
        true true true).parquet = some [shardX1, shardX2] ∧
    (merge_parquets_and_report schemaX [some shardX1, some shardX2]
        true true true).rows_written = 2 := by
  constructor <;> rfl

/-- C1 (amended): the sort-then-dedup the claim describes is performed by
the harvester on its in-memory dataframe, not by the shard merger.  For
every input row list: the finalized rows carry pairwise distinct dois;
every input doi is still represented; every surviving row is one of the
input rows; and each survivor has a minimal sort key (ascending posted,
deposited, indexed and created dates, nulls last) among all input rows
with the same doi — so when an identifier occurs with availability
timestamps t1 < t2, the surviving row is the one with t1. -/
theorem harvest_dedup_c1 (rows : List FlatRow) :
    (harvest_finalize rows).Pairwise (fun a b => a.doi ≠ b.doi) ∧
    (∀ r ∈ rows, ∃ y ∈ harvest_finalize rows, y.doi = r.doi) ∧
    (∀ y ∈ harvest_finalize rows, y ∈ rows) ∧
    (∀ y ∈ harvest_finalize rows, ∀ r ∈ rows,
        r.doi = y.doi → sortKey y ≤ sortKey r) := by
  by_cases h : rows = []
  · subst h; simp [harvest_finalize]
  · unfold harvest_finalize
    rw [if_neg h]
    have hperm := List.perm_insertionSort keyLe rows
    have hsorted : (List.insertionSort keyLe rows).Sorted keyLe :=
      List.sorted_insertionSort keyLe rows
    refine ⟨drop_duplicates_doi_pairwise _, ?_, ?_, ?_⟩
    · intro r hr
      exact drop_duplicates_doi_represents _ r (hperm.mem_iff.mpr hr)
    · intro y hy
      exact hperm.mem_iff.mp (drop_duplicates_doi_subset _ y hy)
    · intro y hy r hr hdoi
      exact drop_duplicates_doi_min _ hsorted y hy r (hperm.mem_iff.mpr hr) hdoi

/-- C1 witness: the amended theorem applied to the two concrete duplicate
rows for doi X; a survivor with the doi of the earlier row exists. -/
theorem harvest_dedup_c1_witness :
    ∃ y ∈ harvest_finalize [exRow2, exRow1], y.doi = exRow1.doi :=
  (harvest_dedup_c1 [exRow2, exRow1]).2.1 exRow1 (by simp)

/-! ## C4 -/

/-- C4 (code bug): the claim states the intent of the source — its
try/except-pass around pa.compute.cast exists precisely to keep the
column as originally typed and continue — and the spec says the same, but
the code defeats itself: the function then builds
pa.table(cols, schema=schema), which re-casts the kept mismatched column
to the declared field type, and that cast has just failed, so the
construction raises; the per-shard except in the merge loop catches it
and skips THE WHOLE SHARD.  Evaluated at the failing input: the shard
whose string score column holds the non-numeric value abc fails the cast
to the unified int32 type, its alignment raises, and it contributes zero
rows to the merged output instead of its one row with the column kept as
a string. -/
theorem cast_failure_shard_skipped_c4 :
    castColumn colC4 DType.int32 = none ∧
    alignField tblC4 ("score", DType.int32) = some colC4 ∧
    _align_table_to_schema tblC4 schemaC4 = none ∧
    total_rows_written schemaC4 [some tblC4] = 0 := by
  refine ⟨rfl, rfl, rfl, rfl⟩

/-! ## C6 -/

/-- C6 (counterexample): schema unification does not promote differing
numeric types.  Two shards typing the same column x as int32 and int64
make pa.unify_schemas raise (modelled as none) instead of producing the
promoted schema with x typed int64 that the claim requires; only the
column named score is special-cased. -/
theorem unify_no_promotion_c6 :
    _collect_unified_schema
      [some [("x", DType.int32)], some [("x", DType.int64)]] = none := by
  rfl

/-- C6 (amended): the unified schema is the union of the readable shard
schemas, but type promotion is applied only to the score column, which is
normalized to float64 in every shard schema before unification (plus the
null-type promotion of the underlying unifier); other columns must agree.
In the stated scenario the unified schema is doi string, score float64,
language string as claimed, but the merged output is not fifteen rows:
shard 1 lacks the language column, so its alignment hits the raising
missing-column branch (pa.nulls called with the wrong keyword, and Arrow
arrays have no rename method), the per-shard handler skips shard 1
entirely, and only the five rows of shard 2 — which aligns to itself —
are merged. -/
theorem schema_union_scenario_c6 :
    _collect_unified_schema [some c6schema1, some c6schema2] = some c6unified ∧
    _align_table_to_schema c6shard1 c6unified = none ∧
    _align_table_to_schema c6shard2 c6unified = some c6shard2 ∧
    total_rows_written c6unified [some c6shard1, some c6shard2] = 5 := by
  refine ⟨rfl, rfl, rfl, rfl⟩

/-! ## C8 -/

/-- C8: the finalized parquet output exists exactly when the writer opened
and the rename-replace succeeded; when the replace fails (and the cleanup
remove succeeds) the temporary artifact is gone, the parquet output is
absent and the report marks it skipped rather than the run crashing; the
csv mirror and the row counter are the same aligned shard content in every
case, independent of the parquet flags. -/
theorem finalize_atomic_c8 (schema : ArrowSchema)
    (shards : List (Option ArrowTable)) (w rep rem : Bool) :
    ((merge_parquets_and_report schema shards w rep rem).parquet
        = if w && rep then some (aligned_tables schema shards) else none) ∧
    (w = true → rep = false → rem = true →
      (merge_parquets_and_report schema shards w rep rem).parquet = none ∧
      (merge_parquets_and_report schema shards w rep rem).tmp_remains = false ∧
      (merge_parquets_and_report schema shards w rep rem).report_parquet_skipped
        = true) ∧
    ((merge_parquets_and_report schema shards w rep rem).csv
        = aligned_tables schema shards) ∧
    ((merge_parquets_and_report schema shards w rep rem).rows_written
        = total_rows_written schema shards) := by
  cases w <;> cases rep <;> cases rem <;>
    simp [merge_parquets_and_report, total_rows_written]

/-- C8 witness: with an opened writer, a failed replace and a successful
cleanup on one concrete shard, the parquet output is skipped, the
temporary file is removed and the report records the skip. -/
theorem finalize_atomic_c8_witness :
    (merge_parquets_and_report schemaX [some shardX1] true false true).parquet
        = none ∧
    (merge_parquets_and_report schemaX [some shardX1] true false true).tmp_remains
        = false ∧
    (merge_parquets_and_report schemaX [some shardX1]
        true false true).report_parquet_skipped = true :=
  (finalize_atomic_c8 schemaX [some shardX1] true false true).2.1 rfl rfl rfl

/-! ## C9 -/

/-- Successful alignment preserves the num_rows attribute of a shard
table. -/
theorem align_num_rows (tbl : ArrowTable) (schema : ArrowSchema)
    (atbl : ArrowTable) (h : _align_table_to_schema tbl schema = some atbl) :
    atbl.num_rows = tbl.num_rows := by
  unfold _align_table_to_schema at h
  split at h
  · split at h
    · injection h with h; subst h; rfl
    · exact Option.noConfusion h
  · exact Option.noConfusion h

/-- C9 (counterexample): a 2000-row shard is flagged suspected_incomplete,
yet it can still be excluded from the merge for reasons unrelated to the
flag: against a unified schema containing a language field the shard
lacks, its alignment raises (the missing-column branch) and the per-shard
handler skips it, so it contributes zero rows to the merged output — not
all 2000 as the claim requires. -/
theorem shard2000_skipped_c9 :
    (mkShardRecord "data/runs/cap.parquet"
        (some tbl2000.num_rows)).suspected_incomplete = some true ∧
    _align_table_to_schema tbl2000 schemaC9 = none ∧
    total_rows_written schemaC9 [some tbl2000] = 0 := by
  refine ⟨rfl, rfl, rfl⟩

/-- C9 (amended): a discovered shard whose probed row count is exactly
2000 gets suspected_incomplete set to true, and the flag is purely
advisory: the merge pipeline takes no flag as input, and appending such a
shard to any merge run adds all 2000 of its rows to the merged output
provided the shard is readable and aligns to the unified schema; a shard
skipped by the per-shard error handler contributes nothing, but that
exclusion is independent of the flag. -/
theorem suspected_incomplete_advisory_c9 (path : String) (tbl atbl : ArrowTable)
    (schema : ArrowSchema) (shards : List (Option ArrowTable))
    (h2000 : tbl.num_rows = 2000)
    (halign : _align_table_to_schema tbl schema = some atbl) :
    (mkShardRecord path (some tbl.num_rows)).suspected_incomplete = some true ∧
    total_rows_written schema (shards ++ [some tbl])
      = total_rows_written schema shards + 2000 := by
  constructor
  · simp [mkShardRecord, h2000]
  · have hnum : atbl.num_rows = 2000 := by
      rw [align_num_rows tbl schema atbl halign, h2000]
    simp only [total_rows_written, aligned_tables, List.filterMap_append,
      List.map_append, List.sum_append, List.filterMap_cons, id,
      List.filterMap_nil, List.map_cons, List.map_nil, List.sum_cons,
      List.sum_nil, halign, hnum]
    omega

/-- C9 witness: the advisory theorem applied to a concrete shard of
exactly 2000 rows that aligns to its own schema and is merged on its
own. -/
theorem suspected_incomplete_advisory_c9_witness :
    (mkShardRecord "data/runs/part.parquet"
        (some tbl2000.num_rows)).suspected_incomplete = some true ∧
    total_rows_written schema2000 ([] ++ [some tbl2000])
      = total_rows_written schema2000 [] + 2000 :=
  suspected_incomplete_advisory_c9 "data/runs/part.parquet" tbl2000 tbl2000
    schema2000 [] rfl rfl
